import Mathlib

/-! Verification of the screen layer of `pyg/screen.py`: the batched-primitive
buffer/flush protocol of `Screen`, the world↔screen view mapping, zoom,
pan and reset of `GraphScreen`, and the keyboard-driven camera of
`Screen3D`. Python floats are embedded as exact rationals (`Rat`), colour
bytes as naturals; fallible code paths (a `raise`, an attribute or key
lookup that can fail) are embedded as `Option`-valued functions where
`none` marks the raised exception.
-/

namespace Pyg

/-- The five primitive kinds of `Screen._vertex_types`
(`screen.py` line 25): `('points', 'lines', 'line_strip', 'triangles', 'quads')`. -/
inductive VType
  | points
  | lines
  | lineStrip
  | triangles
  | quads
deriving DecidableEq, Repr

/-- The five OpenGL topologies `Screen.flush` tags uploads with
(`screen.py` lines 259-273). -/
inductive Topology
  | glPoints
  | glLines
  | glLineStrip
  | glTriangles
  | glQuads
deriving DecidableEq, Repr

/-- The fixed kind → topology table of the `flush` dispatch
(`screen.py` lines 259-273). -/
def vtypeTopology : VType → Topology
  | VType.points => Topology.glPoints
  | VType.lines => Topology.glLines
  | VType.lineStrip => Topology.glLineStrip
  | VType.triangles => Topology.glTriangles
  | VType.quads => Topology.glQuads

/-- A GPU-resident vertex list as produced by `self._batch.add(count, mode,
None, ('v3f', vertices), ('c3B', colors))`: the vertex count, the topology
tag and the uploaded arrays. -/
structure VList where
  count : Nat
  mode : Topology
  v3f : List Rat
  c3B : List Nat
deriving DecidableEq, Repr

/-- One entry of the `self._vertex_lists` dictionary. Python distinguishes
a key that is present with value `None` (`noneVal`), a key bound to a live
vertex list (`handle`), and a key removed by `del` (`missing`) — looking a
`missing` key up raises `KeyError`. -/
inductive HEntry
  | missing
  | noneVal
  | handle (v : VList)
deriving DecidableEq, Repr

/-- The buffer/handle state of a `Screen` (`Screen.__init__`,
`screen.py` lines 55-66): the `visible` flag, the per-kind vertex and
colour buffer arrays `self._vertices` / `self._colors`, the per-kind
vertex-list entries of `self._vertex_lists` plus its `'bg'` entry, and a
log of every vertex list whose `delete()` (GPU release) has been called. -/
structure ScreenState where
  visible : Bool
  verts : VType → List Rat
  cols : VType → List Nat
  lists : VType → HEntry
  bgList : HEntry
  released : List VList

/-- Update one kind's slot of a per-kind map. -/
def bufSet {α : Type} (f : VType → α) (k : VType) (a : α) : VType → α :=
  fun k2 => if k2 = k then a else f k2

/-- The call `self._batch.add(len(vs) // 3, MODE, None, ('v3f', vs), ('c3B', cs))`
made by `flush` for kind `k` (`screen.py` lines 259-273). -/
def batchAdd (k : VType) (vs : List Rat) (cs : List Nat) : VList :=
  { count := vs.length / 3, mode := vtypeTopology k, v3f := vs, c3B := cs }

/-- One iteration of the `flush` loop body for kind `k`
(`screen.py` lines 252-277): if the entry is truthy, `delete()` it and
`del` its key; if the screen is invisible, `continue`; otherwise upload
the kind's buffers as a fresh vertex list and store it. A `missing` key
raises `KeyError` (`none`). -/
def flushStep (s : ScreenState) (k : VType) : Option ScreenState :=
  match s.lists k with
  | HEntry.missing => none
  | HEntry.noneVal =>
      if s.visible then
        some { s with lists := bufSet s.lists k (HEntry.handle (batchAdd k (s.verts k) (s.cols k))) }
      else
        some s
  | HEntry.handle v =>
      if s.visible then
        some { s with released := s.released ++ [v],
                      lists := bufSet s.lists k (HEntry.handle (batchAdd k (s.verts k) (s.cols k))) }
      else
        some { s with released := s.released ++ [v],
                      lists := bufSet s.lists k HEntry.missing }

/-- The buffer clearing of `Screen._clear` (`screen.py` lines 281-289):
every kind's vertex and colour arrays are reset to `[]`. -/
def clearBuffers (s : ScreenState) : ScreenState :=
  { s with verts := fun _ => [], cols := fun _ => [] }

/-- `Screen.flush` (`screen.py` lines 245-279): the loop over
`self._vertex_types` in declaration order, followed by `self._clear()`. -/
def flushScreen (s : ScreenState) : Option ScreenState :=
  (flushStep s VType.points).bind fun s1 =>
  (flushStep s1 VType.lines).bind fun s2 =>
  (flushStep s2 VType.lineStrip).bind fun s3 =>
  (flushStep s3 VType.triangles).bind fun s4 =>
  (flushStep s4 VType.quads).map clearBuffers

/-- The vertex list held by an entry, if any. -/
def heldOf : HEntry → List VList
  | HEntry.handle v => [v]
  | _ => []

/-- The vertex lists held by the five per-kind entries, in
`_vertex_types` order. -/
def heldKinds (s : ScreenState) : List VList :=
  heldOf (s.lists VType.points) ++ heldOf (s.lists VType.lines) ++
    heldOf (s.lists VType.lineStrip) ++ heldOf (s.lists VType.triangles) ++
    heldOf (s.lists VType.quads)

/-- Every vertex list held in `self._vertex_lists`, in the dictionary's
insertion order: the `'bg'` key first (`screen.py` line 62), then the five
kinds. -/
def heldHandles (s : ScreenState) : List VList :=
  heldOf s.bgList ++ heldKinds s

/-- The hide branch of `set_visible` on one entry (`screen.py` lines
86-89): a truthy entry is deleted, then every iterated key is set to
`None`; a `missing` key is not iterated and stays missing. -/
def hideEntry : HEntry → HEntry
  | HEntry.missing => HEntry.missing
  | _ => HEntry.noneVal

/-- `Screen.set_visible` (`screen.py` lines 72-89). The screen's own
`render` and `set_bg` are dynamically dispatched (overridden by
subclasses and applications), so they enter as function parameters.
With `True` the code runs `self.render()` then `self.set_bg(self.bg)`;
with `False` it deletes every held vertex list and sets every present
`_vertex_lists` key to `None`. -/
def set_visible (render setBg : ScreenState → ScreenState)
    (v : Bool) (s : ScreenState) : ScreenState :=
  let s1 : ScreenState := { s with visible := v }
  if v then
    setBg (render s1)
  else
    { s1 with bgList := hideEntry s1.bgList,
              lists := fun k => hideEntry (s1.lists k),
              released := s1.released ++ heldHandles s1 }

/-- `Screen.set_points` (`screen.py` lines 150-161): replaces the points
buffers outright; despite the docstring's "must be the same length" there
is no length check in the body. -/
def set_points (s : ScreenState) (vs : List Rat) (cs : List Nat) : ScreenState :=
  { s with verts := bufSet s.verts VType.points vs,
           cols := bufSet s.cols VType.points cs }

/-- `Screen2D.add_points` (`screen.py` lines 472-485): raises `IndexError`
(`none`) when the two arrays differ in length, before touching the
buffers; otherwise extends both points buffers. -/
def add_points2D (s : ScreenState) (vs : List Rat) (cs : List Nat) : Option ScreenState :=
  if vs.length ≠ cs.length then none
  else
    some { s with verts := bufSet s.verts VType.points (s.verts VType.points ++ vs),
                  cols := bufSet s.cols VType.points (s.cols VType.points ++ cs) }

/-- `Screen3D.add_points` (`screen.py` lines 1048-1059): extends both
points buffers unconditionally; no length check at all. -/
def add_points3D (s : ScreenState) (vs : List Rat) (cs : List Nat) : ScreenState :=
  { s with verts := bufSet s.verts VType.points (s.verts VType.points ++ vs),
           cols := bufSet s.cols VType.points (s.cols VType.points ++ cs) }

/-- The mouse buttons `GraphScreen.mouse_down` / `mouse_up` dispatch on
(`pyglet.window.mouse.LEFT / MIDDLE / RIGHT`). -/
inductive MouseButton
  | left
  | middle
  | right
deriving DecidableEq, Repr

/-- The view state of a `GraphScreen` (`GraphScreen.__init__`,
`screen.py` lines 600-644): screen size `w`, `h`; world-space centre
`gx`, `gy` and extents `gw`, `gh`; the derived bounding box
`min_gx .. max_gy`; the stored reset view `_ogx .. _ogh` (`ogx ..`);
the construction-time screen size `_ow`, `_oh` (`ow`, `oh`); the
cumulative `total_zoom`; the zoom ratio `self.zoom_valobj.value` read
from the shared value-set (`zoomVal`); and the drag bookkeeping
`drag`, `mdownx`, `mdowny`, `offsx`, `offsy`. `mdownx` and `mdowny`
are *not* assigned in `__init__` — only a middle-button `mouse_down`
creates them — so they are embedded as `Option Rat`, `none` meaning
the attribute does not exist (reading it raises `AttributeError`). -/
structure GraphState where
  w : Rat
  h : Rat
  gx : Rat
  gy : Rat
  gw : Rat
  gh : Rat
  min_gx : Rat
  max_gx : Rat
  min_gy : Rat
  max_gy : Rat
  ogx : Rat
  ogy : Rat
  ogw : Rat
  ogh : Rat
  ow : Rat
  oh : Rat
  total_zoom : Rat
  zoomVal : Rat
  drag : Bool
  mdownx : Option Rat
  mdowny : Option Rat
  offsx : Rat
  offsy : Rat
deriving DecidableEq, Repr

/-- `GraphScreen._set_graph_minmax` (`screen.py` lines 646-650). -/
def setGraphMinmax (s : GraphState) : GraphState :=
  { s with min_gx := s.gx - s.gw / 2,
           max_gx := s.gx + s.gw / 2,
           min_gy := s.gy - s.gh / 2,
           max_gy := s.gy + s.gh / 2 }

/-- The state `GraphScreen.__init__` leaves the view fields in
(`screen.py` lines 631-644): `set_graph_coords` then
`_set_graph_minmax` then `reset_to` with the constructor arguments,
`_ow`/`_oh` recording the construction size, `total_zoom = 1`,
`drag = False`, zero drag offsets, and `mdownx`/`mdowny` unset. -/
def initGraph (w h gx gy gw gh zoomVal : Rat) : GraphState :=
  { w := w, h := h,
    gx := gx, gy := gy, gw := gw, gh := gh,
    min_gx := gx - gw / 2, max_gx := gx + gw / 2,
    min_gy := gy - gh / 2, max_gy := gy + gh / 2,
    ogx := gx, ogy := gy, ogw := gw, ogh := gh,
    ow := w, oh := h,
    total_zoom := 1, zoomVal := zoomVal,
    drag := false, mdownx := none, mdowny := none,
    offsx := 0, offsy := 0 }

/-- `GraphScreen.set_graph_coords` (`screen.py` lines 689-705): sets the
four view fields and nothing else — in particular it does not recompute
the bounding box. -/
def set_graph_coords (s : GraphState) (gx gy gw gh : Rat) : GraphState :=
  { s with gx := gx, gy := gy, gw := gw, gh := gh }

/-- `GraphScreen.set_graph_view` (`screen.py` lines 707-723): sets the
centre, `total_zoom`, and derives `gw = _ogw / zoom ** 0.5` and
`gh = gw * h / w`. The real square root `zoom ** .5` is passed in as
`sqrtZoom` (intended use: `sqrtZoom ^ 2 = zoom`, `0 ≤ sqrtZoom`). It
also does not recompute the bounding box. -/
def set_graph_view (s : GraphState) (gx gy zoom sqrtZoom : Rat) : GraphState :=
  { s with gx := gx, gy := gy, total_zoom := zoom,
           gw := s.ogw / sqrtZoom,
           gh := s.ogw / sqrtZoom * s.h / s.w }

/-- `GraphScreen.reset_graph` (`screen.py` lines 660-669): restore the
stored original centre, rescale the stored original extents by the
current/original screen-size ratio, recompute the bounding box, and reset
`total_zoom` to 1. -/
def resetGraph (s : GraphState) : GraphState :=
  { setGraphMinmax
      { s with gx := s.ogx, gy := s.ogy,
               gw := s.ogw * (s.w / s.ow),
               gh := s.ogh * (s.h / s.oh) }
    with total_zoom := 1 }

/-- `GraphScreen.refit` (`screen.py` lines 738-754): scale the extents by
the new/old screen-dimension ratio, recompute the bounding box, and store
the new dimensions. The commented-out `total_zoom` correction is absent. -/
def refitG (s : GraphState) (width height : Rat) : GraphState :=
  { setGraphMinmax
      { s with gw := s.gw * (width / s.w), gh := s.gh * (height / s.h) }
    with w := width, h := height }

/-- `GraphScreen.up` view arithmetic (`screen.py` lines 801-808):
`gy += gh / 5`, then `_set_graph_minmax` (the trailing `set_bg`/`render`
act on the drawing state only). -/
def moveUpG (s : GraphState) : GraphState :=
  setGraphMinmax { s with gy := s.gy + s.gh / 5 }

/-- `GraphScreen.down` view arithmetic (`screen.py` lines 810-817). -/
def moveDownG (s : GraphState) : GraphState :=
  setGraphMinmax { s with gy := s.gy - s.gh / 5 }

/-- `GraphScreen.left` view arithmetic (`screen.py` lines 819-826). -/
def moveLeftG (s : GraphState) : GraphState :=
  setGraphMinmax { s with gx := s.gx - s.gw / 5 }

/-- `GraphScreen.right` view arithmetic (`screen.py` lines 828-835). -/
def moveRightG (s : GraphState) : GraphState :=
  setGraphMinmax { s with gx := s.gx + s.gw / 5 }

/-- `GraphScreen.on_screen` (`screen.py` lines 838-849): world point →
screen point. -/
def on_screen (s : GraphState) (x y : Rat) : Rat × Rat :=
  ((x - s.gx + s.gw / 2) * s.w / s.gw, (y - s.gy + s.gh / 2) * s.h / s.gh)

/-- `GraphScreen.on_plot` (`screen.py` lines 851-862): screen point →
world point. -/
def on_plot (s : GraphState) (x y : Rat) : Rat × Rat :=
  (x * s.gw / s.w + s.gx - s.gw / 2, y * s.gh / s.h + s.gy - s.gh / 2)

/-- The left-button branch of `GraphScreen.mouse_up`
(`screen.py` lines 876-882), mutation order preserved: the new centre is
computed from the *old* extents, then the extents are multiplied by the
zoom ratio, then the bounding box is recomputed, then `total_zoom` is
multiplied by `(1 / ratio) ** 2`. -/
def zoomInG (s : GraphState) (mx my : Rat) : GraphState :=
  { setGraphMinmax
      { s with gx := s.gx - s.gw / 2 + mx * s.gw / s.w,
               gy := s.gy - s.gh / 2 + my * s.gh / s.h,
               gw := s.gw * s.zoomVal,
               gh := s.gh * s.zoomVal }
    with total_zoom := s.total_zoom * (1 / s.zoomVal) ^ 2 }

/-- The right-button branch of `GraphScreen.mouse_up`
(`screen.py` lines 884-890): same recentering, extents divided by the
zoom ratio, `total_zoom` divided by `(1 / ratio) ** 2`. -/
def zoomOutG (s : GraphState) (mx my : Rat) : GraphState :=
  { setGraphMinmax
      { s with gx := s.gx - s.gw / 2 + mx * s.gw / s.w,
               gy := s.gy - s.gh / 2 + my * s.gh / s.h,
               gw := s.gw / s.zoomVal,
               gh := s.gh / s.zoomVal }
    with total_zoom := s.total_zoom / (1 / s.zoomVal) ^ 2 }

/-- The middle-button branch of `GraphScreen.mouse_up`
(`screen.py` lines 892-900): reads `self.mdownx`/`self.mdowny` — an
`AttributeError` (`none`) if they were never assigned — converts the
down- and release-points to world coordinates with `on_plot`, shifts the
centre by their world-space delta, recomputes the bounding box and clears
the drag offset. -/
def panReleaseG (s : GraphState) (mx my : Rat) : Option GraphState :=
  match s.mdownx, s.mdowny with
  | some dx, some dy =>
      let p1 := on_plot { s with drag := false } dx dy
      let p2 := on_plot { s with drag := false } mx my
      some { setGraphMinmax
               { s with drag := false,
                        gx := s.gx - (p2.1 - p1.1),
                        gy := s.gy - (p2.2 - p1.2) }
             with offsx := 0, offsy := 0 }
  | _, _ => none

/-- `GraphScreen.mouse_down` (`screen.py` lines 869-873): only the middle
button does anything — it starts a drag and records the down position
(creating `mdownx`/`mdowny`). -/
def mouse_down (s : GraphState) (mx my : Rat) (b : MouseButton) : GraphState :=
  match b with
  | MouseButton.middle => { s with drag := true, mdownx := some mx, mdowny := some my }
  | _ => s

/-- The view-state effect of `GraphScreen.mouse_up`
(`screen.py` lines 875-902); the trailing `set_bg`/`render` touch only
the drawing state. -/
def mouse_up (s : GraphState) (mx my : Rat) (b : MouseButton) : Option GraphState :=
  match b with
  | MouseButton.left => some (zoomInG s mx my)
  | MouseButton.right => some (zoomOutG s mx my)
  | MouseButton.middle => panReleaseG s mx my

/-- `GraphScreen.mouse_drag` (`screen.py` lines 864-867): while a drag is
active, the pixel offset is recomputed from the recorded down position
(an `AttributeError` if it does not exist). -/
def mouse_drag (s : GraphState) (mx my : Rat) : Option GraphState :=
  if s.drag then
    match s.mdownx, s.mdowny with
    | some dx, some dy => some { s with offsx := mx - dx, offsy := my - dy }
    | _, _ => none
  else some s

/-- The `GraphScreen` operations the claims quantify over: the three
mouse events, the four arrow-key nudges (`key_down`,
`screen.py` lines 904-912, dispatches the arrow keys to
`left`/`right`/`up`/`down`), `refit` and `reset_graph`. -/
inductive GOp
  | mouseDown (mx my : Rat) (b : MouseButton)
  | mouseUp (mx my : Rat) (b : MouseButton)
  | mouseDrag (mx my : Rat)
  | nudgeUp
  | nudgeDown
  | nudgeLeft
  | nudgeRight
  | refitOp (width height : Rat)
  | resetOp
deriving DecidableEq, Repr

/-- Run one `GraphScreen` operation; `none` is a raised exception. -/
def applyG (s : GraphState) : GOp → Option GraphState
  | GOp.mouseDown mx my b => some (mouse_down s mx my b)
  | GOp.mouseUp mx my b => mouse_up s mx my b
  | GOp.mouseDrag mx my => mouse_drag s mx my
  | GOp.nudgeUp => some (moveUpG s)
  | GOp.nudgeDown => some (moveDownG s)
  | GOp.nudgeLeft => some (moveLeftG s)
  | GOp.nudgeRight => some (moveRightG s)
  | GOp.refitOp width height => some (refitG s width height)
  | GOp.resetOp => some (resetGraph s)

/-- Run a sequence of `GraphScreen` operations in order. -/
def applySeq (s : GraphState) : List GOp → Option GraphState
  | [] => some s
  | op :: ops => (applyG s op).bind fun s1 => applySeq s1 ops

/-- The operations that mutate the view centre or extent: zooms and
pans (`mouse_up`), the four nudges, `refit` and `reset_graph`. -/
def mutatesView : GOp → Bool
  | GOp.mouseUp _ _ _ => true
  | GOp.nudgeUp => true
  | GOp.nudgeDown => true
  | GOp.nudgeLeft => true
  | GOp.nudgeRight => true
  | GOp.refitOp _ _ => true
  | GOp.resetOp => true
  | _ => false

/-- The zoom/pan/nudge operations (the input events): everything except
`refit` and `reset_graph`. -/
def isZoomPanNudge : GOp → Bool
  | GOp.refitOp _ _ => false
  | GOp.resetOp => false
  | _ => true

/-- Whether an operation is a middle-button `mouse_down`. -/
def isMiddleDown : GOp → Bool
  | GOp.mouseDown _ _ MouseButton.middle => true
  | _ => false

/-- The derived bounding box is in sync with the centre and extents
(the `_set_graph_minmax` equations, `screen.py` lines 646-650). -/
def bboxFresh (s : GraphState) : Prop :=
  s.min_gx = s.gx - s.gw / 2 ∧ s.max_gx = s.gx + s.gw / 2 ∧
    s.min_gy = s.gy - s.gh / 2 ∧ s.max_gy = s.gy + s.gh / 2

instance (s : GraphState) : Decidable (bboxFresh s) := by
  unfold bboxFresh
  infer_instance

/-- The view state of a `Screen3D` (`Screen3D.__init__`,
`screen.py` lines 929-958): the camera vector, the rotation vector
(degrees per axis) and the reserved offset vector, componentwise. -/
structure Screen3DState where
  cam0 : Rat
  cam1 : Rat
  cam2 : Rat
  rot0 : Rat
  rot1 : Rat
  rot2 : Rat
  off0 : Rat
  off1 : Rat
  off2 : Rat
deriving DecidableEq, Repr

/-- The keys `Screen3D.key_down` binds (`screen.py` lines 1167-1195). -/
inductive Key3
  | arrowLeft
  | arrowRight
  | arrowUp
  | arrowDown
  | keyX
  | keyZ
  | keyS
  | keyA
  | keyJ
  | keyL
  | keyI
  | keyK
deriving DecidableEq, Repr

/-- `Screen3D.key_down` (`screen.py` lines 1167-1195): arrows and X/Z
turn the rotation axes by ±5 degrees; S/A move the camera z by ±10 and
clamp it one-sidedly at 400 / −400; J/L/I/K move camera x and y by ±2. -/
def key_down3 (s : Screen3DState) : Key3 → Screen3DState
  | Key3.arrowLeft => { s with rot2 := s.rot2 + 5 }
  | Key3.arrowRight => { s with rot2 := s.rot2 - 5 }
  | Key3.arrowUp => { s with rot0 := s.rot0 + 5 }
  | Key3.arrowDown => { s with rot0 := s.rot0 - 5 }
  | Key3.keyX => { s with rot1 := s.rot1 - 5 }
  | Key3.keyZ => { s with rot1 := s.rot1 + 5 }
  | Key3.keyS =>
      let c := s.cam2 + 10
      { s with cam2 := if c > 400 then 400 else c }
  | Key3.keyA =>
      let c := s.cam2 - 10
      { s with cam2 := if c < -400 then -400 else c }
  | Key3.keyJ => { s with cam0 := s.cam0 + 2 }
  | Key3.keyL => { s with cam0 := s.cam0 - 2 }
  | Key3.keyI => { s with cam1 := s.cam1 - 2 }
  | Key3.keyK => { s with cam1 := s.cam1 + 2 }

/-- A concrete `GraphScreen` view: 100×100 screen, centre (0,0), extents
10×10, zoom ratio ½ — the state of the spec's zoom scenario. -/
def g0 : GraphState := initGraph 100 100 0 0 10 10 (1/2)

/-- The view after a zoom-in click at the screen centre of `g0`. -/
def gZ : GraphState := zoomInG g0 50 50

/-- The view after one upward nudge of `g0`. -/
def gN : GraphState := moveUpG g0

/-- A concrete `Screen3D` view with camera z at 395. -/
def cam395 : Screen3DState :=
  { cam0 := 0, cam1 := 0, cam2 := 395,
    rot0 := 0, rot1 := 0, rot2 := 0,
    off0 := 0, off1 := 0, off2 := 0 }

/-- A fresh visible screen: empty buffers, every vertex-list entry
`None`, nothing released — the buffer state right after `Screen.__init__`
(background entry aside). -/
def scr0 : ScreenState :=
  { visible := true, verts := fun _ => [], cols := fun _ => [],
    lists := fun _ => HEntry.noneVal, bgList := HEntry.noneVal, released := [] }

/-- The same fresh screen, invisible. -/
def scrInv : ScreenState := { scr0 with visible := false }

/-- The result of flushing `scr0`. -/
def scr0F : ScreenState := (flushScreen scr0).getD scr0

/-- The result of flushing `scrInv`. -/
def scrInvF : ScreenState := (flushScreen scrInv).getD scrInv

/-! Theorems about the embedded operations. -/

/-- Fresh bounding box after `_set_graph_minmax`. -/
theorem bboxFresh_setGraphMinmax (t : GraphState) : bboxFresh (setGraphMinmax t) := by
  simp [bboxFresh, setGraphMinmax]

/-- C1: for every `GraphScreen` view state with positive extents and
screen size, the world-to-screen map `on_screen` and the screen-to-world
map `on_plot` are mutual inverses: `on_screen (on_plot (sx, sy)) = (sx, sy)`
(exactly, over exact rational arithmetic). -/
theorem on_screen_on_plot_inverse (s : GraphState) (sx sy : Rat)
    (hgw : 0 < s.gw) (hgh : 0 < s.gh) (hw : 0 < s.w) (hh : 0 < s.h) :
    on_screen s (on_plot s sx sy).1 (on_plot s sx sy).2 = (sx, sy) := by
  have hgw' : s.gw ≠ 0 := ne_of_gt hgw
  have hgh' : s.gh ≠ 0 := ne_of_gt hgh
  have hw' : s.w ≠ 0 := ne_of_gt hw
  have hh' : s.h ≠ 0 := ne_of_gt hh
  unfold on_screen on_plot
  simp only [Prod.mk.injEq]
  constructor <;> (field_simp; ring)

/-- Witness for C1: the round trip at screen point (3, 7) on the concrete
view `g0`. -/
theorem on_screen_on_plot_inverse_witness :
    on_screen g0 (on_plot g0 3 7).1 (on_plot g0 3 7).2 = (3, 7) :=
  on_screen_on_plot_inverse g0 3 7 (by decide) (by decide) (by decide) (by decide)

/-- C2: a left-button `mouse_up` at screen point (mx, my) first recentres
(`gx = gx - gw/2 + mx*gw/w`, likewise `gy`), then multiplies `gw` and
`gh` by the zoom ratio read from the value-set, recomputes the bounding
box, and multiplies `total_zoom` by `(1/ratio)^2`; concretely, on a
100×100 screen with view (0, 0, 10, 10) and ratio ½, a zoom-in at
(50, 50) yields `gw = gh = 5`, `gx = gy = 0`, `total_zoom = 4`. -/
theorem zoom_in_spec :
    (∀ (s s' : GraphState) (mx my : Rat),
        mouse_up s mx my MouseButton.left = some s' →
          s'.gx = s.gx - s.gw / 2 + mx * s.gw / s.w ∧
          s'.gy = s.gy - s.gh / 2 + my * s.gh / s.h ∧
          s'.gw = s.gw * s.zoomVal ∧
          s'.gh = s.gh * s.zoomVal ∧
          bboxFresh s' ∧
          s'.total_zoom = s.total_zoom * (1 / s.zoomVal) ^ 2) ∧
    (∀ s', mouse_up g0 50 50 MouseButton.left = some s' →
        s'.gw = 5 ∧ s'.gh = 5 ∧ s'.gx = 0 ∧ s'.gy = 0 ∧ s'.total_zoom = 4) := by
  constructor
  · intro s s' mx my h
    simp only [mouse_up, Option.some.injEq] at h
    subst h
    refine ⟨rfl, rfl, rfl, rfl, ?_, rfl⟩
    exact bboxFresh_setGraphMinmax _
  · intro s' h
    simp only [mouse_up, Option.some.injEq] at h
    subst h
    refine ⟨?_, ?_, ?_, ?_, ?_⟩ <;>
      simp [zoomInG, setGraphMinmax, g0, initGraph] <;> norm_num

/-- Witness for C2: the general clause instantiated at the concrete zoom
scenario state. -/
theorem zoom_in_spec_witness :
    gZ.gx = g0.gx - g0.gw / 2 + 50 * g0.gw / g0.w ∧
    gZ.gy = g0.gy - g0.gh / 2 + 50 * g0.gh / g0.h ∧
    gZ.gw = g0.gw * g0.zoomVal ∧
    gZ.gh = g0.gh * g0.zoomVal ∧
    bboxFresh gZ ∧
    gZ.total_zoom = g0.total_zoom * (1 / g0.zoomVal) ^ 2 :=
  zoom_in_spec.1 g0 gZ 50 50 rfl

/-- C3 (amended): after every `GraphScreen` operation that mutates the
view centre or extent and goes through an event or public move/refit/reset
entry point — zoom, pan, nudge, `refit`, `reset_graph` — the bounding box
is recomputed immediately; `set_graph_coords` and `set_graph_view`,
however, mutate the centre and extents without recomputing it. -/
theorem bbox_fresh_after_mutation (s s' : GraphState) (op : GOp)
    (hm : mutatesView op = true) (h : applyG s op = some s') : bboxFresh s' := by
  cases op with
  | mouseDown mx my b => simp [mutatesView] at hm
  | mouseDrag mx my => simp [mutatesView] at hm
  | mouseUp mx my b =>
      cases b with
      | left =>
          simp only [applyG, mouse_up, Option.some.injEq] at h
          subst h
          exact bboxFresh_setGraphMinmax _
      | right =>
          simp only [applyG, mouse_up, Option.some.injEq] at h
          subst h
          exact bboxFresh_setGraphMinmax _
      | middle =>
          simp only [applyG, mouse_up] at h
          unfold panReleaseG at h
          split at h
          · simp only [Option.some.injEq] at h
            subst h
            exact bboxFresh_setGraphMinmax _
          · exact absurd h (by simp)
  | nudgeUp =>
      simp only [applyG, Option.some.injEq] at h
      subst h
      exact bboxFresh_setGraphMinmax _
  | nudgeDown =>
      simp only [applyG, Option.some.injEq] at h
      subst h
      exact bboxFresh_setGraphMinmax _
  | nudgeLeft =>
      simp only [applyG, Option.some.injEq] at h
      subst h
      exact bboxFresh_setGraphMinmax _
  | nudgeRight =>
      simp only [applyG, Option.some.injEq] at h
      subst h
      exact bboxFresh_setGraphMinmax _
  | refitOp width height =>
      simp only [applyG, Option.some.injEq] at h
      subst h
      exact bboxFresh_setGraphMinmax _
  | resetOp =>
      simp only [applyG, Option.some.injEq] at h
      subst h
      exact bboxFresh_setGraphMinmax _

/-- Witness for C3: the bounding box is fresh after one nudge of `g0`. -/
theorem bbox_fresh_after_mutation_witness : bboxFresh gN :=
  bbox_fresh_after_mutation g0 gN GOp.nudgeUp rfl rfl

/-- Counterexample for C3 as stated: `set_graph_coords` changes the
extents of a concrete view without recomputing the bounding box, leaving
it stale. -/
theorem set_graph_coords_leaves_bbox_stale :
    ¬ bboxFresh (set_graph_coords (initGraph 100 100 0 0 2 2 (1/2)) 0 0 10 10) := by
  intro hfresh
  have h1 := hfresh.1
  norm_num [set_graph_coords, initGraph, bboxFresh] at h1

/-- C9: on a `Screen3D` whose camera z lies in [−400, 400], every
`key_down` leaves it in [−400, 400]: the S/A keys add or subtract 10 and
clamp at the touched bound, and no other binding modifies camera z. -/
theorem camera_z_clamped (s : Screen3DState) (k : Key3)
    (h1 : -400 ≤ s.cam2) (h2 : s.cam2 ≤ 400) :
    (-400 ≤ (key_down3 s k).cam2 ∧ (key_down3 s k).cam2 ≤ 400) ∧
    (key_down3 s k).cam2 =
      (if k = Key3.keyS then (if s.cam2 + 10 > 400 then 400 else s.cam2 + 10)
       else if k = Key3.keyA then (if s.cam2 - 10 < -400 then -400 else s.cam2 - 10)
       else s.cam2) := by
  cases k <;> simp only [key_down3] <;>
    first
      | exact ⟨⟨h1, h2⟩, by simp⟩
      | · constructor
          · split_ifs with hc
            · constructor <;> norm_num
            · constructor <;> linarith
          · simp

/-- The fields no zoom, pan or nudge touches: the stored reset view, the
construction-time screen size, and the current screen size. -/
def anchors (s : GraphState) : Rat × Rat × Rat × Rat × Rat × Rat × Rat × Rat :=
  (s.ogx, s.ogy, s.ogw, s.ogh, s.ow, s.oh, s.w, s.h)

/-- One zoom/pan/nudge operation preserves the anchor fields. -/
theorem anchors_applyG (s s' : GraphState) (op : GOp)
    (hz : isZoomPanNudge op = true) (h : applyG s op = some s') :
    anchors s' = anchors s := by
  cases op with
  | mouseDown mx my b =>
      simp only [applyG, Option.some.injEq] at h
      subst h
      cases b <;> rfl
  | mouseDrag mx my =>
      simp only [applyG] at h
      unfold mouse_drag at h
      split at h
      · split at h
        · simp only [Option.some.injEq] at h
          subst h
          rfl
        · exact absurd h (by simp)
      · simp only [Option.some.injEq] at h
        subst h
        rfl
  | mouseUp mx my b =>
      cases b with
      | left =>
          simp only [applyG, mouse_up, Option.some.injEq] at h
          subst h
          rfl
      | right =>
          simp only [applyG, mouse_up, Option.some.injEq] at h
          subst h
          rfl
      | middle =>
          simp only [applyG, mouse_up] at h
          unfold panReleaseG at h
          split at h
          · simp only [Option.some.injEq] at h
            subst h
            rfl
          · exact absurd h (by simp)
  | nudgeUp =>
      simp only [applyG, Option.some.injEq] at h
      subst h
      rfl
  | nudgeDown =>
      simp only [applyG, Option.some.injEq] at h
      subst h
      rfl
  | nudgeLeft =>
      simp only [applyG, Option.some.injEq] at h
      subst h
      rfl
  | nudgeRight =>
      simp only [applyG, Option.some.injEq] at h
      subst h
      rfl
  | refitOp width height => simp [isZoomPanNudge] at hz
  | resetOp => simp [isZoomPanNudge] at hz

/-- A sequence of zoom/pan/nudge operations preserves the anchor fields. -/
theorem anchors_applySeq (ops : List GOp) : ∀ (s s' : GraphState),
    (∀ op ∈ ops, isZoomPanNudge op = true) → applySeq s ops = some s' →
    anchors s' = anchors s := by
  induction ops with
  | nil =>
      intro s s' _ h
      simp only [applySeq, Option.some.injEq] at h
      subst h
      rfl
  | cons op ops ih =>
      intro s s' hall h
      simp only [applySeq, Option.bind_eq_some] at h
      obtain ⟨s1, h1, h2⟩ := h
      have e1 := anchors_applyG s s1 op (hall op (List.mem_cons_self op ops)) h1
      have e2 := ih s1 s' (fun o ho => hall o (List.mem_cons_of_mem op ho)) h2
      exact e2.trans e1

/-- C8: for a `GraphScreen` constructed with view (gx0, gy0, gw0, gh0)
on a w0×h0 screen, after any sequence of zoom/pan/nudge operations
`reset_graph` restores `gx = gx0`, `gy = gy0`, sets
`gw = gw0 * (w / w0)` and `gh = gh0 * (h / h0)` (equal to gw0, gh0 when
the screen size is unchanged — and these operations never change it),
resets `total_zoom` to 1, and recomputes the bounding box. -/
theorem reset_graph_spec (w0 h0 gx0 gy0 gw0 gh0 rv : Rat)
    (ops : List GOp) (s' : GraphState)
    (hops : ∀ op ∈ ops, isZoomPanNudge op = true)
    (h : applySeq (initGraph w0 h0 gx0 gy0 gw0 gh0 rv) ops = some s') :
    (resetGraph s').gx = gx0 ∧ (resetGraph s').gy = gy0 ∧
    (resetGraph s').gw = gw0 * (s'.w / w0) ∧ (resetGraph s').gh = gh0 * (s'.h / h0) ∧
    s'.w = w0 ∧ s'.h = h0 ∧
    (w0 ≠ 0 → (resetGraph s').gw = gw0) ∧ (h0 ≠ 0 → (resetGraph s').gh = gh0) ∧
    (resetGraph s').total_zoom = 1 ∧ bboxFresh (resetGraph s') := by
  have e := anchors_applySeq ops _ s' hops h
  simp only [anchors, initGraph, Prod.mk.injEq] at e
  obtain ⟨e1, e2, e3, e4, e5, e6, e7, e8⟩ := e
  refine ⟨?_, ?_, ?_, ?_, e7, e8, ?_, ?_, rfl, bboxFresh_setGraphMinmax _⟩
  · simpa [resetGraph, setGraphMinmax] using e1
  · simpa [resetGraph, setGraphMinmax] using e2
  · simp [resetGraph, setGraphMinmax, e3, e5]
  · simp [resetGraph, setGraphMinmax, e4, e6]
  · intro hw0
    simp [resetGraph, setGraphMinmax, e3, e5, e7, div_self hw0]
  · intro hh0
    simp [resetGraph, setGraphMinmax, e4, e6, e8, div_self hh0]

/-- Witness for C8: one nudge on the concrete view `g0`, then reset. -/
theorem reset_graph_spec_witness :
    (resetGraph gN).gx = 0 ∧ (resetGraph gN).gy = 0 ∧
    (resetGraph gN).gw = 10 * (gN.w / 100) ∧ (resetGraph gN).gh = 10 * (gN.h / 100) ∧
    gN.w = 100 ∧ gN.h = 100 ∧
    ((100 : Rat) ≠ 0 → (resetGraph gN).gw = 10) ∧ ((100 : Rat) ≠ 0 → (resetGraph gN).gh = 10) ∧
    (resetGraph gN).total_zoom = 1 ∧ bboxFresh (resetGraph gN) :=
  reset_graph_spec 100 100 0 0 10 10 (1/2) [GOp.nudgeUp] gN (by simp [isZoomPanNudge]) rfl

/-- A non-middle-`mouse_down` operation keeps `mdownx`/`mdowny` unset. -/
theorem mdown_none_preserved (s s' : GraphState) (op : GOp)
    (hop : isMiddleDown op = false)
    (hx : s.mdownx = none) (hy : s.mdowny = none)
    (h : applyG s op = some s') : s'.mdownx = none ∧ s'.mdowny = none := by
  cases op with
  | mouseDown mx my b =>
      cases b with
      | middle => simp [isMiddleDown] at hop
      | left =>
          simp only [applyG, mouse_down, Option.some.injEq] at h
          subst h
          exact ⟨hx, hy⟩
      | right =>
          simp only [applyG, mouse_down, Option.some.injEq] at h
          subst h
          exact ⟨hx, hy⟩
  | mouseDrag mx my =>
      simp only [applyG] at h
      unfold mouse_drag at h
      split at h
      · rw [hx] at h
        exact absurd h (by simp)
      · simp only [Option.some.injEq] at h
        subst h
        exact ⟨hx, hy⟩
  | mouseUp mx my b =>
      cases b with
      | left =>
          simp only [applyG, mouse_up, Option.some.injEq] at h
          subst h
          exact ⟨hx, hy⟩
      | right =>
          simp only [applyG, mouse_up, Option.some.injEq] at h
          subst h
          exact ⟨hx, hy⟩
      | middle =>
          simp only [applyG, mouse_up] at h
          unfold panReleaseG at h
          rw [hx] at h
          exact absurd h (by simp)
  | nudgeUp =>
      simp only [applyG, Option.some.injEq] at h
      subst h
      exact ⟨hx, hy⟩
  | nudgeDown =>
      simp only [applyG, Option.some.injEq] at h
      subst h
      exact ⟨hx, hy⟩
  | nudgeLeft =>
      simp only [applyG, Option.some.injEq] at h
      subst h
      exact ⟨hx, hy⟩
  | nudgeRight =>
      simp only [applyG, Option.some.injEq] at h
      subst h
      exact ⟨hx, hy⟩
  | refitOp width height =>
      simp only [applyG, Option.some.injEq] at h
      subst h
      exact ⟨hx, hy⟩
  | resetOp =>
      simp only [applyG, Option.some.injEq] at h
      subst h
      exact ⟨hx, hy⟩

/-- A sequence without a middle `mouse_down` keeps `mdownx`/`mdowny`
unset. -/
theorem mdown_none_applySeq (ops : List GOp) : ∀ (s s' : GraphState),
    (∀ op ∈ ops, isMiddleDown op = false) →
    s.mdownx = none → s.mdowny = none → applySeq s ops = some s' →
    s'.mdownx = none ∧ s'.mdowny = none := by
  induction ops with
  | nil =>
      intro s s' _ hx hy h
      simp only [applySeq, Option.some.injEq] at h
      subst h
      exact ⟨hx, hy⟩
  | cons op ops ih =>
      intro s s' hall hx hy h
      simp only [applySeq, Option.bind_eq_some] at h
      obtain ⟨s1, h1, h2⟩ := h
      obtain ⟨hx1, hy1⟩ :=
        mdown_none_preserved s s1 op (hall op (List.mem_cons_self op ops)) hx hy h1
      exact ih s1 s' (fun o ho => hall o (List.mem_cons_of_mem op ho)) hx1 hy1 h2

/-- C10: a freshly constructed `GraphScreen` has no `mdownx`/`mdowny`
attributes, only a middle-button `mouse_down` creates them, and for a
screen that has never received a middle-button `mouse_down`, a
middle-button `mouse_up` reads the unset attributes and fails
(`AttributeError`) instead of panning. -/
theorem middle_up_before_down_fails (w0 h0 gx0 gy0 gw0 gh0 rv mx my : Rat)
    (ops : List GOp) (s' : GraphState)
    (hops : ∀ op ∈ ops, isMiddleDown op = false)
    (h : applySeq (initGraph w0 h0 gx0 gy0 gw0 gh0 rv) ops = some s') :
    s'.mdownx = none ∧ s'.mdowny = none ∧
    mouse_up s' mx my MouseButton.middle = none := by
  obtain ⟨hx, hy⟩ := mdown_none_applySeq ops _ s' hops rfl rfl h
  refine ⟨hx, hy, ?_⟩
  unfold mouse_up panReleaseG
  rw [hx]

/-- Witness for C10: the empty event sequence on the concrete view:
a middle-button release on the fresh screen fails. -/
theorem middle_up_before_down_fails_witness :
    g0.mdownx = none ∧ g0.mdowny = none ∧
    mouse_up g0 1 2 MouseButton.middle = none :=
  middle_up_before_down_fails 100 100 0 0 10 10 (1/2) 1 2 [] g0 (by simp) rfl

/-- Witness for C9: pressing S at camera z = 395 clamps to 400. -/
theorem camera_z_clamped_witness :
    ((-400 ≤ (key_down3 cam395 Key3.keyS).cam2 ∧ (key_down3 cam395 Key3.keyS).cam2 ≤ 400) ∧
      (key_down3 cam395 Key3.keyS).cam2 =
        (if Key3.keyS = Key3.keyS then (if cam395.cam2 + 10 > 400 then 400 else cam395.cam2 + 10)
         else if Key3.keyS = Key3.keyA then (if cam395.cam2 - 10 < -400 then -400 else cam395.cam2 - 10)
         else cam395.cam2)) :=
  camera_z_clamped cam395 Key3.keyS (by decide) (by decide)

/-- What one `flush`-loop iteration does to the screen state: buffers,
visibility and the background entry are untouched, the other kinds'
entries are untouched, the previously held handle (if any) is appended to
the release log, and the kind's entry afterwards is the fresh upload when
visible, never a handle when invisible. -/
theorem flushStep_eq (s : ScreenState) (k : VType) (s' : ScreenState)
    (h : flushStep s k = some s') :
    s'.verts = s.verts ∧ s'.cols = s.cols ∧ s'.visible = s.visible ∧
    s'.bgList = s.bgList ∧
    (∀ k2, k2 ≠ k → s'.lists k2 = s.lists k2) ∧
    s'.released = s.released ++ heldOf (s.lists k) ∧
    (s.visible = true → s'.lists k = HEntry.handle (batchAdd k (s.verts k) (s.cols k))) ∧
    (s.visible = false → ∀ v, s'.lists k ≠ HEntry.handle v) := by
  unfold flushStep at h
  rcases hsk : s.lists k with _ | _ | v0 <;> rw [hsk] at h
  · exact absurd h (by simp)
  · rcases hv : s.visible with _ | _ <;> rw [hv] at h
    · rw [if_neg (by decide : ¬(false = true))] at h
      injection h with h
      subst h
      exact ⟨rfl, rfl, hv, rfl, fun k2 _ => rfl, by simp [heldOf],
        fun hvis => absurd hvis (by decide), fun _ v => by simp [hsk]⟩
    · rw [if_pos rfl] at h
      injection h with h
      subst h
      exact ⟨rfl, rfl, rfl, rfl, fun k2 hk2 => by simp [bufSet, hk2],
        by simp [heldOf], fun _ => by simp [bufSet],
        fun hvis => absurd hvis (by decide)⟩
  · rcases hv : s.visible with _ | _ <;> rw [hv] at h
    · rw [if_neg (by decide : ¬(false = true))] at h
      injection h with h
      subst h
      exact ⟨rfl, rfl, rfl, rfl, fun k2 hk2 => by simp [bufSet, hk2],
        by simp [heldOf], fun hvis => absurd hvis (by decide),
        fun _ v => by simp [bufSet]⟩
    · rw [if_pos rfl] at h
      injection h with h
      subst h
      exact ⟨rfl, rfl, rfl, rfl, fun k2 hk2 => by simp [bufSet, hk2],
        by simp [heldOf], fun _ => by simp [bufSet],
        fun hvis => absurd hvis (by decide)⟩

/-- What `Screen.flush` does when it returns: every buffer is cleared,
visibility and the background entry are untouched, exactly the previously
held per-kind handles are appended to the release log in kind order, and
afterwards each kind's entry is the fresh upload of its old buffers when
visible and never a handle when invisible. -/
theorem flushScreen_eq (s s' : ScreenState) (h : flushScreen s = some s') :
    (∀ k, s'.verts k = []) ∧ (∀ k, s'.cols k = []) ∧
    s'.visible = s.visible ∧ s'.bgList = s.bgList ∧
    s'.released = s.released ++ heldKinds s ∧
    (s.visible = true → ∀ k, s'.lists k = HEntry.handle (batchAdd k (s.verts k) (s.cols k))) ∧
    (s.visible = false → ∀ k v, s'.lists k ≠ HEntry.handle v) := by
  unfold flushScreen at h
  simp only [Option.bind_eq_some, Option.map_eq_some'] at h
  obtain ⟨s1, h1, s2, h2, s3, h3, s4, h4, s5, h5, hs'⟩ := h
  subst hs'
  obtain ⟨v1, c1, vis1, bg1, pres1, rel1, up1, no1⟩ := flushStep_eq s VType.points s1 h1
  obtain ⟨v2, c2, vis2, bg2, pres2, rel2, up2, no2⟩ := flushStep_eq s1 VType.lines s2 h2
  obtain ⟨v3, c3, vis3, bg3, pres3, rel3, up3, no3⟩ := flushStep_eq s2 VType.lineStrip s3 h3
  obtain ⟨v4, c4, vis4, bg4, pres4, rel4, up4, no4⟩ := flushStep_eq s3 VType.triangles s4 h4
  obtain ⟨v5, c5, vis5, bg5, pres5, rel5, up5, no5⟩ := flushStep_eq s4 VType.quads s5 h5
  have hLl : s1.lists VType.lines = s.lists VType.lines := pres1 _ (by decide)
  have hLls : s2.lists VType.lineStrip = s.lists VType.lineStrip := by
    rw [pres2 _ (by decide), pres1 _ (by decide)]
  have hLt : s3.lists VType.triangles = s.lists VType.triangles := by
    rw [pres3 _ (by decide), pres2 _ (by decide), pres1 _ (by decide)]
  have hLq : s4.lists VType.quads = s.lists VType.quads := by
    rw [pres4 _ (by decide), pres3 _ (by decide), pres2 _ (by decide), pres1 _ (by decide)]
  have hrel : s5.released = s.released ++ heldOf (s.lists VType.points) ++
      heldOf (s.lists VType.lines) ++ heldOf (s.lists VType.lineStrip) ++
      heldOf (s.lists VType.triangles) ++ heldOf (s.lists VType.quads) := by
    rw [rel5, hLq, rel4, hLt, rel3, hLls, rel2, hLl, rel1]
  refine ⟨fun k => rfl, fun k => rfl, ?_, ?_, ?_, fun hvis k => ?_, fun hvis k v => ?_⟩
  · exact vis5.trans (vis4.trans (vis3.trans (vis2.trans vis1)))
  · exact bg5.trans (bg4.trans (bg3.trans (bg2.trans bg1)))
  · show s5.released = s.released ++ heldKinds s
    rw [hrel]
    simp [heldKinds, List.append_assoc]
  · show s5.lists k = _
    cases k with
    | points =>
        rw [pres5 _ (by decide), pres4 _ (by decide), pres3 _ (by decide),
          pres2 _ (by decide)]
        exact up1 hvis
    | lines =>
        rw [pres5 _ (by decide), pres4 _ (by decide), pres3 _ (by decide),
          up2 (vis1.trans hvis), v1, c1]
    | lineStrip =>
        rw [pres5 _ (by decide), pres4 _ (by decide),
          up3 (vis2.trans (vis1.trans hvis)), v2, v1, c2, c1]
    | triangles =>
        rw [pres5 _ (by decide),
          up4 (vis3.trans (vis2.trans (vis1.trans hvis))), v3, v2, v1, c3, c2, c1]
    | quads =>
        rw [up5 (vis4.trans (vis3.trans (vis2.trans (vis1.trans hvis)))),
          v4, v3, v2, v1, c4, c3, c2, c1]
  · show s5.lists k ≠ _
    cases k with
    | points =>
        rw [pres5 _ (by decide), pres4 _ (by decide), pres3 _ (by decide),
          pres2 _ (by decide)]
        exact no1 hvis v
    | lines =>
        rw [pres5 _ (by decide), pres4 _ (by decide), pres3 _ (by decide)]
        exact no2 (vis1.trans hvis) v
    | lineStrip =>
        rw [pres5 _ (by decide), pres4 _ (by decide)]
        exact no3 (vis2.trans (vis1.trans hvis)) v
    | triangles =>
        rw [pres5 _ (by decide)]
        exact no4 (vis3.trans (vis2.trans (vis1.trans hvis))) v
    | quads =>
        exact no5 (vis4.trans (vis3.trans (vis2.trans (vis1.trans hvis)))) v

/-- C5: whenever `flush()` returns, it has, for each shape kind, released
the previously held GPU handle (if one existed) and — only if the screen
is visible — uploaded the buffered vertex/colour arrays as a new
primitive list tagged with that kind's fixed topology; and afterwards the
per-kind vertex and colour buffers are empty for all kinds regardless of
visibility. -/
theorem flush_spec (s s' : ScreenState) (h : flushScreen s = some s') :
    (∀ k, s'.verts k = [] ∧ s'.cols k = []) ∧
    s'.released = s.released ++ heldKinds s ∧
    (s.visible = true → ∀ k, s'.lists k = HEntry.handle (batchAdd k (s.verts k) (s.cols k))) ∧
    (s.visible = false → ∀ k v, s'.lists k ≠ HEntry.handle v) ∧
    (vtypeTopology VType.points = Topology.glPoints ∧
     vtypeTopology VType.lines = Topology.glLines ∧
     vtypeTopology VType.lineStrip = Topology.glLineStrip ∧
     vtypeTopology VType.triangles = Topology.glTriangles ∧
     vtypeTopology VType.quads = Topology.glQuads) := by
  obtain ⟨hv, hc, _, _, hrel, hup, hno⟩ := flushScreen_eq s s' h
  exact ⟨fun k => ⟨hv k, hc k⟩, hrel, hup, hno, rfl, rfl, rfl, rfl, rfl⟩

/-- Witness for C5: flushing the fresh visible screen releases exactly
the (empty set of) previously held per-kind handles. -/
theorem flush_spec_witness :
    scr0F.released = scr0.released ++ heldKinds scr0 :=
  (flush_spec scr0 scr0F rfl).2.1

/-- Counterexample for C6 as stated: flushing the fresh *visible* screen
`scr0`, all of whose buffers are empty, still uploads and holds a
zero-vertex primitive list for each kind — "yields no GPU handles" fails
for a visible screen. -/
theorem flush_empty_visible_holds_handle :
    ¬ (∀ t, flushScreen scr0 = some t → ∀ k v, t.lists k ≠ HEntry.handle v) := by
  intro hcl
  exact hcl scr0F rfl VType.points (batchAdd VType.points [] []) rfl

/-- C6 (amended): calling `flush()` when every per-kind buffer is empty
leaves the buffer state empty afterwards (empty before and after) and
releases exactly the previously held handles; when the screen is
invisible no primitive list is held afterwards, but when it is visible
`flush` still stores one zero-vertex primitive list per kind. -/
theorem flush_empty_spec (s s' : ScreenState)
    (hv : ∀ k, s.verts k = []) (hc : ∀ k, s.cols k = [])
    (h : flushScreen s = some s') :
    (∀ k, s'.verts k = [] ∧ s'.cols k = []) ∧
    s'.released = s.released ++ heldKinds s ∧
    (s.visible = false → ∀ k v, s'.lists k ≠ HEntry.handle v) ∧
    (s.visible = true → ∀ k, s'.lists k = HEntry.handle (batchAdd k [] [])) := by
  obtain ⟨hv', hc', _, _, hrel, hup, hno⟩ := flushScreen_eq s s' h
  refine ⟨fun k => ⟨hv' k, hc' k⟩, hrel, hno, fun hvis k => ?_⟩
  rw [hup hvis k, hv k, hc k]

/-- Witness for C6 (amended): flushing the fresh invisible screen. -/
theorem flush_empty_spec_witness :
    scrInvF.verts VType.points = [] ∧ scrInvF.cols VType.points = [] :=
  (flush_empty_spec scrInv scrInvF (fun _ => rfl) (fun _ => rfl) rfl).1 VType.points

/-- C7: `set_visible(False)` releases every currently-held GPU handle
(the background's included) and leaves no entry holding one, while the
CPU-side per-kind vertex and colour buffers are unchanged;
`set_visible(True)` re-runs `render()` and then rebuilds the background
with `set_bg`. -/
theorem set_visible_spec (render setBg : ScreenState → ScreenState) (s : ScreenState) :
    ((set_visible render setBg false s).verts = s.verts ∧
     (set_visible render setBg false s).cols = s.cols ∧
     (∀ k v, (set_visible render setBg false s).lists k ≠ HEntry.handle v) ∧
     (∀ v, (set_visible render setBg false s).bgList ≠ HEntry.handle v) ∧
     (set_visible render setBg false s).released = s.released ++ heldHandles s) ∧
    set_visible render setBg true s = setBg (render { s with visible := true }) := by
  refine ⟨⟨rfl, rfl, ?_, ?_, rfl⟩, rfl⟩
  · intro k v
    show hideEntry (s.lists k) ≠ HEntry.handle v
    cases hsl : s.lists k <;> simp [hideEntry]
  · intro v
    show hideEntry s.bgList ≠ HEntry.handle v
    cases hbg : s.bgList <;> simp [hideEntry]

/-- Witness for C7: hiding the fresh screen releases exactly the held
handles (none here). -/
theorem set_visible_spec_witness :
    (set_visible id id false scr0).released = scr0.released ++ heldHandles scr0 :=
  (set_visible_spec id id scr0).1.2.2.2.2

/-- Counterexample for C4 as stated: a mismatched vertex/colour pair is
*not* rejected by `Screen3D.add_points` (it appends anyway) nor by
`Screen.set_points` (it replaces anyway) — only `Screen2D.add_points`
checks. -/
theorem add_points_mismatch_not_failing :
    ([0] : List Rat).length ≠ ([] : List Nat).length ∧
    (add_points3D scr0 [0] []).verts VType.points = [0] ∧
    (set_points scr0 [0] []).verts VType.points = [0] ∧
    (set_points scr0 [0] []).cols VType.points = [] := by
  refine ⟨by decide, ?_, ?_, ?_⟩ <;> rfl

/-- C4 (amended): `Screen2D.add_points` fails with a length-mismatch
error on arrays of unequal length, leaving the point buffers unchanged
(the error is raised before any buffering), and appends both arrays on
equal lengths; `Screen.set_points` replaces the buffered arrays and
`Screen3D.add_points` appends to them with no length check in either. -/
theorem add_set_points_spec (s : ScreenState) (vs : List Rat) (cs : List Nat) :
    add_points2D s vs cs =
      (if vs.length = cs.length then
        some { s with verts := bufSet s.verts VType.points (s.verts VType.points ++ vs),
                      cols := bufSet s.cols VType.points (s.cols VType.points ++ cs) }
       else none) ∧
    (set_points s vs cs).verts VType.points = vs ∧
    (set_points s vs cs).cols VType.points = cs ∧
    (add_points3D s vs cs).verts VType.points = s.verts VType.points ++ vs ∧
    (add_points3D s vs cs).cols VType.points = s.cols VType.points ++ cs := by
  refine ⟨?_, ?_, ?_, ?_, ?_⟩
  · rcases eq_or_ne vs.length cs.length with he | hne
    · simp [add_points2D, he]
    · simp [add_points2D, hne]
  all_goals simp [set_points, add_points3D, bufSet]

/-- Witness for C4 (amended): a matched pair is buffered by `set_points`. -/
theorem add_set_points_spec_witness :
    (set_points scr0 [0] [5]).verts VType.points = [0] :=
  (add_set_points_spec scr0 [0] [5]).2.1

end Pyg
